import Mathlib

/-!
Shallow embedding of the cartridge validation engine
(`src/validators/cartridge-lint.js`) and proofs about the claims of the
specification.  JavaScript strings are modelled as Lean `String`s; the
string primitives used by the source (`split`, `startsWith`, `includes`,
`trim`, regular-expression tests) are modelled explicitly below, working
over the character lists of the strings.
-/

set_option maxRecDepth 40000

namespace VibeCore

/-- A finding: an error or a warning, with a message and an optional line
reference (the source always calls `error`/`warning` with the default
`line = null`). -/
structure Finding where
  message : String
  line : Option Nat
deriving Repr, DecidableEq

/-- `this.errors.push({message, line: null})` -/
def mkError (message : String) : Finding := { message := message, line := none }

/-- `this.warnings.push({message, line: null})` -/
def mkWarning (message : String) : Finding := { message := message, line := none }

/-! ### String primitives (models of the JavaScript built-ins) -/

/-- Model of `sub.isPrefixOf hay` on raw character lists, used to build the
other primitives. -/
def isPrefixL (sub hay : List Char) : Bool :=
  List.isPrefixOf sub hay

/-- Model of JavaScript `hay.includes(sub)`: `sub` occurs contiguously in
`hay`. -/
def containsL (sub : List Char) : List Char → Bool
  | [] => sub.isEmpty
  | c :: t => isPrefixL sub (c :: t) || containsL sub t

/-- `s.includes(sub)` on strings. -/
def strContains (s sub : String) : Bool := containsL sub.toList s.toList

/-- `s.startsWith(p)` on strings. -/
def strStartsWith (s p : String) : Bool := isPrefixL p.toList s.toList

/-- JavaScript `s.substring(n)` (ASCII inputs: character count). -/
def strDrop (s : String) (n : Nat) : String := String.mk (s.toList.drop n)

/-- JavaScript `s.trim()`. -/
def jsTrim (s : String) : String :=
  String.mk (((s.toList.dropWhile Char.isWhitespace).reverse.dropWhile
    Char.isWhitespace).reverse)

/-- Lower-casing for the case-insensitive (`i` flag) regular expression
tests. -/
def lcStr (s : String) : String := String.mk (s.toList.map Char.toLower)

/-- Splitting a character list at a separator character, auxiliary. -/
def splitChAux (sep : Char) : List Char → List Char → List (List Char)
  | [], acc => [acc.reverse]
  | c :: t, acc =>
    if c = sep then acc.reverse :: splitChAux sep t []
    else splitChAux sep t (c :: acc)

/-- JavaScript `s.split(sep)` for a single-character separator. -/
def jsSplit (s : String) (sep : Char) : List String :=
  (splitChAux sep s.toList []).map String.mk

/-- `content.split('\n')`. -/
def jsSplitLines (s : String) : List String := jsSplit s '\n'

/-- JavaScript truthiness of a possibly-absent string field
(`undefined` and the empty string are falsy). -/
def strTruthy : Option String → Bool
  | none => false
  | some s => !s.toList.isEmpty

/-- Model of the JavaScript regular expression `/^\d+\.\d+\.\d+/` test:
the string starts with digits, a dot, digits, a dot, digits. -/
def semverPrefix (s : String) : Bool :=
  let l := s.toList
  let d1 := l.takeWhile Char.isDigit
  let r1 := l.drop d1.length
  match r1 with
  | '.' :: r2 =>
    let d2 := r2.takeWhile Char.isDigit
    let r3 := r2.drop d2.length
    (match r3 with
     | '.' :: r4 => !d1.isEmpty && !d2.isEmpty && !(r4.takeWhile Char.isDigit).isEmpty
     | _ => false)
  | _ => false

/-! ### Data model -/

/-- A stack profile as loaded from one stack file: its declared `name`
(the registry key), the four required-technology descriptors and the
forbidden-technology list (`stack.forbidden || []`). -/
structure StackProfile where
  name : String
  framework : Option String := none
  language : Option String := none
  orm : Option String := none
  api : Option String := none
  forbidden : List String := []
deriving Repr, DecidableEq, Inhabited

/-- The registry object of the linter: a JavaScript object modelled as an
insertion-ordered association list with unique keys. -/
abbrev Registry := List (String × StackProfile)

/-- Registry lookup succeeds (the value of the object at `k` is defined). -/
def isKey (reg : Registry) (k : String) : Bool :=
  reg.any (fun kv => kv.1 = k)

/-- Registry lookup at `k` under the guard that the key exists. -/
def jsGet (reg : Registry) (k : String) : StackProfile :=
  ((reg.find? (fun kv => kv.1 = k)).map (fun kv => kv.2)).getD default

/-- Registry assignment at key `k` on a JavaScript object: overwrite in place if the
key exists (keeping its position), otherwise append. -/
def insertKey : Registry → String → StackProfile → Registry
  | [], k, v => [(k, v)]
  | (k', v') :: rest, k, v =>
    if k' = k then (k', v) :: rest else (k', v') :: insertKey rest k v

/-- The parsed front matter object (`yaml.load` output restricted to the
seven fields the validator reads; an absent field is `none`). -/
structure FrontMatter where
  cartridge : Option Bool := none
  name : Option String := none
  tier : Option String := none
  stack : Option String := none
  version : Option String := none
  owner : Option String := none
  status : Option String := none
deriving Repr, DecidableEq

/-! ### Constants from the top of the source file -/

/-- `REQUIRED_SECTIONS` (fixed canonical order). -/
def REQUIRED_SECTIONS : List String :=
  ["Purpose", "Stack Contract", "Development Style", "Inputs", "Outputs",
   "Guardrails", "Steps the Agent Must Follow", "Quality Gates",
   "Integration Points", "Examples", "Version History"]

/-- `VALID_TIERS`. -/
def VALID_TIERS : List String := ["prototype", "productizing", "production"]

/-- `VALID_STATUSES`. -/
def VALID_STATUSES : List String := ["draft", "stable", "deprecated"]

/-- `REQUIRED_SECTIONS.join(', ')`, used in the order warning message. -/
def requiredSectionsJoined : String := String.intercalate ", " REQUIRED_SECTIONS

/-- `VALID_TIERS.join(', ')`. -/
def validTiersJoined : String := String.intercalate ", " VALID_TIERS

/-- `VALID_STATUSES.join(', ')`. -/
def validStatusesJoined : String := String.intercalate ", " VALID_STATUSES

/-- The registry keys joined with a comma-space separator (`Object.keys(..).join`). -/
def stackKeysJoined (reg : Registry) : String :=
  String.intercalate ", " (reg.map (fun kv => kv.1))

/-! ### `validateFrontMatter` -/

/-- The presence flags of the seven required fields, in the order of the
`requiredFields` array of the source. -/
def requiredFieldsPresence (fm : FrontMatter) : List (String × Bool) :=
  [("cartridge", fm.cartridge.isSome), ("name", fm.name.isSome),
   ("tier", fm.tier.isSome), ("stack", fm.stack.isSome),
   ("version", fm.version.isSome), ("owner", fm.owner.isSome),
   ("status", fm.status.isSome)]

/-- The missing-required-field loop of `validateFrontMatter`. -/
def missingFieldErrors (fm : FrontMatter) : List Finding :=
  (requiredFieldsPresence fm).filterMap (fun np =>
    if np.2 then none
    else some (mkError ("Missing required front matter field: " ++ np.1)))

/-- `if (frontMatter.cartridge !== true) error(...)`. -/
def cartridgeErrors (fm : FrontMatter) : List Finding :=
  if fm.cartridge = some true then []
  else [mkError "Front matter cartridge field must be true"]

/-- `if (frontMatter.tier && !VALID_TIERS.includes(frontMatter.tier))`. -/
def tierErrors (fm : FrontMatter) : List Finding :=
  match fm.tier with
  | none => []
  | some t =>
    if t ≠ "" ∧ t ∉ VALID_TIERS then
      [mkError ("Invalid tier: " ++ t ++ ". Must be one of: " ++ validTiersJoined)]
    else []

/-- The unknown-stack error message of `validateFrontMatter`. -/
def unknownStackError (reg : Registry) (s : String) : Finding :=
  mkError ("Unknown stack: " ++ s ++ ". Available stacks: " ++ stackKeysJoined reg)

/-- `if (frontMatter.stack && !<registry lookup of frontMatter.stack>)`. -/
def stackErrors (fm : FrontMatter) (reg : Registry) : List Finding :=
  match fm.stack with
  | none => []
  | some s =>
    if s ≠ "" ∧ isKey reg s = false then [unknownStackError reg s] else []

/-- `if (frontMatter.version && !/^\d+\.\d+\.\d+/.test(frontMatter.version))`. -/
def versionErrors (fm : FrontMatter) : List Finding :=
  match fm.version with
  | none => []
  | some v =>
    if v ≠ "" ∧ semverPrefix v = false then
      [mkError ("Invalid version format: " ++ v ++ ". Use semver (e.g., 1.0.0)")]
    else []

/-- `if (frontMatter.status && !VALID_STATUSES.includes(frontMatter.status))`. -/
def statusErrors (fm : FrontMatter) : List Finding :=
  match fm.status with
  | none => []
  | some st =>
    if st ≠ "" ∧ st ∉ VALID_STATUSES then
      [mkError ("Invalid status: " ++ st ++ ". Must be one of: " ++ validStatusesJoined)]
    else []

/-- `if (frontMatter.owner && !frontMatter.owner.startsWith('@')) warning(...)`. -/
def ownerWarnings (fm : FrontMatter) : List Finding :=
  match fm.owner with
  | none => []
  | some o =>
    if o ≠ "" ∧ strStartsWith o "@" = false then
      [mkWarning ("Owner should start with @ (e.g., @username): " ++ o)]
    else []

/-- `validateFrontMatter(frontMatter)`: emits its findings in source order
(missing-field loop, cartridge flag, tier, stack, version, status; owner
prefix warning) and returns `frontMatter.stack`. -/
def validateFrontMatter (fm : FrontMatter) (reg : Registry) :
    (List Finding × List Finding) × Option String :=
  ((missingFieldErrors fm ++ cartridgeErrors fm ++ tierErrors fm ++
      stackErrors fm reg ++ versionErrors fm ++ statusErrors fm,
    ownerWarnings fm),
   fm.stack)

/-! ### `validateSections` -/

/-- The `foundSections` array: the trimmed titles of all lines of the body
starting with the level-2 heading marker, in order of appearance. -/
def sectionTitles (content : String) : List String :=
  (jsSplitLines content).filterMap (fun l =>
    if strStartsWith l "## " then some (jsTrim (strDrop l 3)) else none)

/-- JavaScript `Array.prototype.findIndex`: index of the first element
satisfying the predicate, `-1` if none does. -/
def jsFindIndex (p : String → Bool) (l : List String) : Int :=
  match l.findIdx? p with
  | some i => (i : Int)
  | none => -1

/-- `REQUIRED_SECTIONS.findIndex(rs => section.startsWith(rs))`. -/
def expectedIdx (section_ : String) : Int :=
  jsFindIndex (fun rs => strStartsWith section_ rs) REQUIRED_SECTIONS

/-- The order warning emitted on an out-of-order section. -/
def orderWarning (section_ : String) : Finding :=
  mkWarning ("Section \"" ++ section_ ++
    "\" is out of order. Expected order: " ++ requiredSectionsJoined)

/-- The `lastIndex` loop of `validateSections`: warn whenever a section's
expected index is below `lastIndex`, then set `lastIndex` to that index. -/
def orderLoop : List String → Int → List Finding
  | [], _ => []
  | s :: rest, lastIndex =>
    (if expectedIdx s < lastIndex then [orderWarning s] else []) ++
      orderLoop rest (expectedIdx s)

/-- `foundSections.filter(s => REQUIRED_SECTIONS.some(rs => s.startsWith(rs)))`. -/
def orderedSectionsOf (content : String) : List String :=
  (sectionTitles content).filter (fun s =>
    REQUIRED_SECTIONS.any (fun rs => strStartsWith s rs))

/-- `validateSections(content)`: missing-section errors (in canonical
order) and out-of-order warnings. -/
def validateSections (content : String) : List Finding × List Finding :=
  let foundSections := sectionTitles content
  let missing := REQUIRED_SECTIONS.filterMap (fun sec =>
    if foundSections.any (fun s => strStartsWith s sec) then none
    else some (mkError ("Missing required section: ## " ++ sec)))
  (missing, orderLoop (orderedSectionsOf content) (-1))

/-! ### `extractSection` -/

/-- A heading line that selects the section in `extractSection`:
`line.startsWith('## ') && line.includes(sectionName)`. -/
def headingMatches (sectionName l : String) : Bool :=
  strStartsWith l "## " && strContains l sectionName

/-- The line loop of `extractSection` with its `inSection` flag. -/
def extractLoop (sectionName : String) : List String → Bool → List String
  | [], _ => []
  | l :: ls, inSection =>
    if headingMatches sectionName l then extractLoop sectionName ls true
    else if inSection && strStartsWith l "## " then []
    else if inSection then l :: extractLoop sectionName ls inSection
    else extractLoop sectionName ls inSection

/-- `extractSection(content, sectionName)`. -/
def extractSection (content sectionName : String) : String :=
  String.intercalate "\n" (extractLoop sectionName (jsSplitLines content) false)

/-! ### `validateStackCompliance` -/

/-- A word character of the JavaScript `\w` class. -/
def jsWordChar (c : Char) : Bool := c.isAlphanum || c = '_'

/-- Search for the first occurrence of `pat` in `hay` and return the rest
of `hay` after it (the residue available to later parts of a pattern). -/
def findDropL (pat : List Char) : List Char → Option (List Char)
  | [] => if pat.isEmpty then some [] else none
  | c :: t =>
    if isPrefixL pat (c :: t) then some ((c :: t).drop pat.length)
    else findDropL pat t

/-- `parts` occur in `hay` in order, pairwise disjoint: the model of a
regular expression `p₁.*p₂.*…*pₙ` over literal parts (`.` does not match a
newline, so such a pattern only matches within one line). -/
def inOrderL (hay : List Char) : List (List Char) → Bool
  | [] => true
  | pat :: rest =>
    match findDropL pat hay with
    | some residue => inOrderL residue rest
    | none => false

/-- The three quote characters of the character class in the compliance
patterns. -/
def quoteChars : List (List Char) := ["'".toList, "\"".toList, "`".toList]

/-- Case-insensitive per-line test that the given literal parts occur in
order with a quote character at each `q` placeholder position: `parts`
lists pre- and post-quote segments. -/
def lineSeqHit (content : String) (parts : List Char → List Char → List (List Char)) : Bool :=
  (jsSplitLines (lcStr content)).any (fun l =>
    quoteChars.any (fun q1 => quoteChars.any (fun q2 =>
      inOrderL l.toList (parts q1 q2))))

/-- Test of the pattern `import.*from.*['"\x60].*term.*['"\x60]` (flags `gi`). -/
def importPatternHit (content term : String) : Bool :=
  lineSeqHit content (fun q1 q2 =>
    ["import".toList, "from".toList, q1, (lcStr term).toList, q2])

/-- Test of the pattern `require\(.*['"\x60].*term.*['"\x60].*\)` (flags `gi`). -/
def requirePatternHit (content term : String) : Bool :=
  lineSeqHit content (fun q1 q2 =>
    ["require(".toList, q1, (lcStr term).toList, q2, ")".toList])

/-- Test of the pattern `from.*['"\x60].*term.*['"\x60]` (flags `gi`). -/
def fromPatternHit (content term : String) : Bool :=
  lineSeqHit content (fun q1 q2 =>
    ["from".toList, q1, (lcStr term).toList, q2])

/-- The error emitted per generic forbidden-pattern hit. -/
def forbiddenTermError (term stackName : String) : Finding :=
  mkError ("Forbidden technology \"" ++ term ++
    "\" detected in examples for stack \"" ++ stackName ++ "\"")

/-- The three generic detection patterns applied to one forbidden term, in
source order; each hit emits its own copy of the error. -/
def genericForbiddenErrors (content term stackName : String) : List Finding :=
  (if importPatternHit content term then [forbiddenTermError term stackName] else []) ++
  (if requirePatternHit content term then [forbiddenTermError term stackName] else []) ++
  (if fromPatternHit content term then [forbiddenTermError term stackName] else [])

/-- Case-insensitive substring test (`includes` on the lower-cased text),
for the technology-specific heuristic patterns without `.*`. -/
def strContainsCI (content sub : String) : Bool :=
  strContains (lcStr content) (lcStr sub)

/-- `/new Vue\(|createApp\(/gi.test(content)`. -/
def vueHeuristicHit (content : String) : Bool :=
  strContainsCI content "new Vue(" || strContainsCI content "createApp("

/-- `/<script.*lang="ts">|\.svelte/gi.test(content)` (the first alternative
contains `.*` and hence must match within one line). -/
def svelteHeuristicHit (content : String) : Bool :=
  (jsSplitLines (lcStr content)).any (fun l =>
    inOrderL l.toList ["<script".toList, "lang=\"ts\">".toList]) ||
  strContainsCI content ".svelte"

/-- `/createStore|useDispatch|useSelector/gi.test(content)`. -/
def reduxHeuristicHit (content : String) : Bool :=
  strContainsCI content "createStore" || strContainsCI content "useDispatch" ||
    strContainsCI content "useSelector"

/-- The three framework-specific heuristic checks applied to one forbidden
term, in source order. -/
def heuristicForbiddenErrors (content term stackName : String) : List Finding :=
  (if term = "vue" ∧ vueHeuristicHit content then
    [mkError ("Vue.js code detected but forbidden in stack \"" ++ stackName ++ "\"")]
   else []) ++
  (if term = "svelte" ∧ svelteHeuristicHit content then
    [mkError ("Svelte code detected but forbidden in stack \"" ++ stackName ++ "\"")]
   else []) ++
  (if term = "redux" ∧ reduxHeuristicHit content then
    [mkError ("Redux code detected but forbidden in stack \"" ++ stackName ++ "\"")]
   else [])

/-- `tech.split('@')[0]`. -/
def techBaseName (tech : String) : String :=
  String.mk (tech.toList.takeWhile (fun c => c ≠ '@'))

/-- The required-technology mention loop: `[framework, language, orm,
api].filter(Boolean)`, each missing mention emitting one warning. -/
def requiredTechWarnings (content : String) (stack : StackProfile) : List Finding :=
  (([stack.framework, stack.language, stack.orm, stack.api].filterMap id).filter
      (fun t => !t.toList.isEmpty)).filterMap (fun tech =>
    let techName := techBaseName tech
    if strContainsCI content techName then none
    else some (mkWarning ("Expected technology \"" ++ techName ++
      "\" not mentioned in cartridge content")))

/-- `validateStackCompliance(content, stackName)`: skipped entirely unless
the stack name is truthy and resolves in the registry. -/
def validateStackCompliance (content : String) (stackName : Option String)
    (reg : Registry) : List Finding × List Finding :=
  match stackName with
  | none => ([], [])
  | some s =>
    if s.toList.isEmpty ∨ isKey reg s = false then ([], [])
    else
      let stack := jsGet reg s
      (stack.forbidden.foldr (fun term acc =>
          genericForbiddenErrors content term s ++
            heuristicForbiddenErrors content term s ++ acc) [],
       requiredTechWarnings content stack)

/-! ### `validateQualityGates` and `validateExamples` -/

/-- `tierLine.split(':')[1].trim()` (the line is known to contain a colon). -/
def tierOfLine (l : String) : String :=
  match jsSplit l ':' with
  | _ :: second :: _ => jsTrim second
  | _ => ""

/-- The tier-dependent expected-command loop of `validateQualityGates`. -/
def expectedCommandWarnings (qualityGatesSection tier : String) : List Finding :=
  if tier = "productizing" ∨ tier = "production" then
    (["lint", "typecheck", "test"]).filterMap (fun cmd =>
      if strContains qualityGatesSection cmd then none
      else some (mkWarning ("Expected command containing \"" ++ cmd ++
        "\" in Quality Gates for " ++ tier ++ " tier")))
  else []

/-- `validateQualityGates(content)`. -/
def validateQualityGates (content : String) : List Finding × List Finding :=
  let qualityGatesSection := extractSection content "Quality Gates"
  if qualityGatesSection.toList.isEmpty then ([], [])
  else
    ((if strContains qualityGatesSection "```bash" ||
         strContains qualityGatesSection "```sh" then []
      else [mkError "Quality Gates section must include runnable bash commands"]),
     match (jsSplitLines content).find? (fun l => strContains l "tier:") with
     | some tierLine => expectedCommandWarnings qualityGatesSection (tierOfLine tierLine)
     | none => [])

/-- The exec loop over the global pattern `\x60\x60\x60(\w+)?`: each fence
marker without a word-character tag directly after it emits one warning.
The exec loop resumes searching after the optional tag; a word character
can never begin a fence, so resuming directly after the three fence
characters (which keeps the recursion structural, via a skip counter)
finds exactly the same matches. -/
def fenceScan : List Char → Nat → List Finding
  | [], _ => []
  | _ :: rest, Nat.succ skip => fenceScan rest skip
  | c :: rest, 0 =>
    if isPrefixL ("```".toList) (c :: rest) then
      (if ((rest.drop 2).takeWhile jsWordChar).isEmpty then
        [mkWarning "Code blocks in Examples should specify a language (e.g., ```typescript)"]
       else []) ++ fenceScan rest 2
    else fenceScan rest 0

/-- All warnings of the exec loop over a section's text. -/
def untaggedFenceWarnings (l : List Char) : List Finding := fenceScan l 0

/-- `validateExamples(content)`. -/
def validateExamples (content : String) : List Finding × List Finding :=
  let examplesSection := extractSection content "Examples"
  if examplesSection.toList.isEmpty then ([], [])
  else
    ((if strContains examplesSection "```" then []
      else [mkError "Examples section must include code blocks"]),
     untaggedFenceWarnings examplesSection.toList)

/-! ### `loadStacks` -/

/-- The outcome of reading and YAML-parsing one stack file: its file name
together with either the parsed profile or the parse/read error message. -/
abbrev StackFile := String × Except String StackProfile

/-- The file loop of `loadStacks` over the already-listed stack files: a
successfully parsed profile is assigned into the registry under its
declared `name` (silently overwriting any earlier entry with the same
name); a failing file records an error naming the file and loading
continues. -/
def loadStacks (files : List StackFile) : Registry × List Finding :=
  files.foldl (fun acc file =>
    match file.2 with
    | Except.ok stack => (insertKey acc.1 stack.name stack, acc.2)
    | Except.error msg =>
      (acc.1, acc.2 ++ [mkError ("Failed to load stack " ++ file.1 ++ ": " ++ msg)]))
    ([], [])

/-! ### `lint` -/

/-- Search for the first occurrence of `pat` in `hay`, splitting `hay`
into the part before the occurrence and the part after it. -/
def findSplitL (pat : List Char) : List Char → Option (List Char × List Char)
  | [] => if pat.isEmpty then some ([], []) else none
  | c :: t =>
    if isPrefixL pat (c :: t) then some ([], (c :: t).drop pat.length)
    else (findSplitL pat t).map (fun ab => (c :: ab.1, ab.2))

/-- Model of the front-matter match of `lint` (the anchored pattern
`\x5E---\n([\s\S]*?)\n---`): the text must begin with the opening
delimiter line at offset zero; the lazily-matched capture group runs up to
the first subsequent closing delimiter.  Returns the capture group (the
raw front matter text) and the remainder of the document after the full
match (`content.substring(frontMatterMatch[0].length)`, the body). -/
def frontMatterSplit (content : String) : Option (String × String) :=
  if strStartsWith content "---\n" then
    match findSplitL ("\n---".toList) (content.toList.drop 4) with
    | some fmBody => some (String.mk fmBody.1, String.mk fmBody.2)
    | none => none
  else none

/-- The mutable state of a `CartridgeLinter` instance: the accumulated
error and warning arrays and the loaded registry. -/
structure LinterState where
  errors : List Finding
  warnings : List Finding
  stackReg : Registry
deriving Repr, DecidableEq

/-- A freshly constructed linter whose `loadStacks` produced the registry
`reg` (and no load errors). -/
def freshLinter (reg : Registry) : LinterState :=
  { errors := [], warnings := [], stackReg := reg }

/-- The validation report returned by `report()`. -/
structure Report where
  valid : Bool
  errors : List Finding
  warnings : List Finding
deriving Repr, DecidableEq

/-- The abstract YAML parser applied to the front matter text: `yaml.load`
either yields a parsed front matter object or throws with a message. -/
abbrev YamlParser := String → Except String FrontMatter

/-- The findings newly emitted by one `lint` call, in emission order: the
front-matter match, the YAML parse, then `validateFrontMatter`,
`validateSections`, `validateStackCompliance`, `validateQualityGates` and
`validateExamples` over the body (a YAML parse failure is caught after the
front-matter error alone and stops everything inside the `try` block). -/
def lintFindings (parse : YamlParser) (reg : Registry) (content : String) :
    List Finding × List Finding :=
  match frontMatterSplit content with
  | none => ([mkError "Missing front matter"], [])
  | some fmBody =>
    match parse fmBody.1 with
    | Except.error msg => ([mkError ("Invalid YAML in front matter: " ++ msg)], [])
    | Except.ok frontMatter =>
      let fmResult := validateFrontMatter frontMatter reg
      let stackName := fmResult.2
      let bodyContent := fmBody.2
      let sec := validateSections bodyContent
      let comp := validateStackCompliance bodyContent stackName reg
      let qg := validateQualityGates bodyContent
      let ex := validateExamples bodyContent
      (fmResult.1.1 ++ sec.1 ++ comp.1 ++ qg.1 ++ ex.1,
       fmResult.1.2 ++ sec.2 ++ comp.2 ++ qg.2 ++ ex.2)

/-- `lint(filePath)` on an existing file with text `content`: pushes the
new findings onto the instance arrays and returns `report()`.  The report
exposes the accumulated arrays themselves, so findings of earlier calls on
the same instance are carried over. -/
def lint (parse : YamlParser) (st : LinterState) (content : String) :
    Report × LinterState :=
  let fs := lintFindings parse st.stackReg content
  let errs := st.errors ++ fs.1
  let warns := st.warnings ++ fs.2
  ({ valid := errs.isEmpty, errors := errs, warnings := warns },
   { errors := errs, warnings := warns, stackReg := st.stackReg })

/-! ### Alternative characterisations used to settle the claims -/

/-- The adjacent-descent characterisation of the order-warning loop:
after the first matched section, a warning is emitted exactly for each
section whose expected index is below the immediately preceding matched
section's expected index. -/
def adjacentOrderWarnings (prev : String) : List String → List Finding
  | [] => []
  | b :: rest =>
    (if expectedIdx b < expectedIdx prev then [orderWarning b] else []) ++
      adjacentOrderWarnings b rest

/-- Adjacent-descent warnings of a matched-section list (the first section
never warns). -/
def specAdjacentWarnings : List String → List Finding
  | [] => []
  | a :: rest => adjacentOrderWarnings a rest

/-- The order-warning behaviour predicted by the claim's words: a section
warns exactly when its expected index is less than the running maximum of
the expected indices seen so far. -/
def runningMaxLoop (m : Int) : List String → List Finding
  | [] => []
  | s :: rest =>
    (if expectedIdx s < m then [orderWarning s] else []) ++
      runningMaxLoop (max m (expectedIdx s)) rest

/-- The claim's predicted order warnings for a body text. -/
def claimRunningMaxWarnings (content : String) : List Finding :=
  runningMaxLoop (-1) (orderedSectionsOf content)

/-- Section extraction as the original claim words it: the selecting
heading is the first level-2 heading line whose trimmed title starts with
the section name, and any following level-2 heading line ends the
section. -/
def claimExtractLoop (sectionName : String) : List String → Bool → List String
  | [], _ => []
  | l :: ls, inSection =>
    if inSection then
      (if strStartsWith l "## " then [] else l :: claimExtractLoop sectionName ls true)
    else if strStartsWith l "## " &&
        strStartsWith (jsTrim (strDrop l 3)) sectionName then
      claimExtractLoop sectionName ls true
    else claimExtractLoop sectionName ls false

/-- The extraction result predicted by the original claim. -/
def claimExtractSection (content sectionName : String) : String :=
  String.intercalate "\n" (claimExtractLoop sectionName (jsSplitLines content) false)

/-- Section extraction as the amended claim words it: the selecting
heading is the first level-2 heading line containing the section name
anywhere in the line; the section runs up to the next level-2 heading line
that does not contain the name, and further matching heading lines inside
that range are dropped from the result. -/
def amendedExtractSection (content sectionName : String) : String :=
  match (jsSplitLines content).dropWhile (fun l => !headingMatches sectionName l) with
  | [] => ""
  | _ :: rest =>
    String.intercalate "\n"
      ((rest.takeWhile (fun l =>
          !strStartsWith l "## " || strContains l sectionName)).filter
        (fun l => !headingMatches sectionName l))

/-! ### General lemmas -/

theorem expectedIdx_ge_neg_one (s : String) : -1 ≤ expectedIdx s := by
  unfold expectedIdx jsFindIndex
  cases List.findIdx? (fun rs => strStartsWith s rs) REQUIRED_SECTIONS with
  | none => exact le_refl _
  | some i => exact le_trans (by norm_num) (Int.ofNat_nonneg i)

theorem orderLoop_eq_adjacent (sectionName : String) :
    ∀ rest : List String, orderLoop rest (expectedIdx sectionName) =
      adjacentOrderWarnings sectionName rest := by
  intro rest
  induction rest generalizing sectionName with
  | nil => rfl
  | cons b rest ih =>
    simp only [orderLoop, adjacentOrderWarnings, ih]

theorem orderLoop_from_start (l : List String) :
    orderLoop l (-1) = specAdjacentWarnings l := by
  cases l with
  | nil => rfl
  | cons a rest =>
    unfold orderLoop specAdjacentWarnings
    rw [if_neg (not_lt.mpr (expectedIdx_ge_neg_one a)), orderLoop_eq_adjacent]
    rfl

theorem extractLoop_inSection (sectionName : String) :
    ∀ ls : List String, extractLoop sectionName ls true =
      (ls.takeWhile (fun l =>
          !strStartsWith l "## " || strContains l sectionName)).filter
        (fun l => !headingMatches sectionName l) := by
  intro ls
  induction ls with
  | nil => rfl
  | cons l ls ih =>
    by_cases hm : headingMatches sectionName l = true
    · have hc : strContains l sectionName = true := by
        unfold headingMatches at hm
        exact (Bool.and_eq_true _ _ |>.mp hm).2
      simp only [extractLoop, hm, if_true, List.takeWhile, hc, Bool.or_true,
        List.filter, Bool.not_true, ih]
    · have hm' : headingMatches sectionName l = false := by
        revert hm; cases headingMatches sectionName l <;> simp
      by_cases hs : strStartsWith l "## " = true
      · have hc : strContains l sectionName = false := by
          unfold headingMatches at hm'
          rcases Bool.and_eq_false_iff.mp hm' with h | h
          · exact absurd hs (by simp [h])
          · exact h
        simp [extractLoop, hm', hs, hc, List.takeWhile]
      · have hs' : strStartsWith l "## " = false := by
          revert hs; cases strStartsWith l "## " <;> simp
        simp [extractLoop, hm', hs', List.takeWhile, List.filter, ih]

theorem extractLoop_searching (sectionName : String) :
    ∀ ls : List String, extractLoop sectionName ls false =
      (match ls.dropWhile (fun l => !headingMatches sectionName l) with
       | [] => []
       | _ :: rest => extractLoop sectionName rest true) := by
  intro ls
  induction ls with
  | nil => rfl
  | cons l ls ih =>
    by_cases hm : headingMatches sectionName l = true
    · simp only [extractLoop, hm, if_true, List.dropWhile, Bool.not_true]
    · have hm' : headingMatches sectionName l = false := by
        revert hm; cases headingMatches sectionName l <;> simp
      simp only [extractLoop, hm', Bool.false_eq_true, if_false,
        Bool.false_and, if_true, List.dropWhile, Bool.not_false, ih]

theorem extractSection_eq_amended (content sectionName : String) :
    extractSection content sectionName =
      amendedExtractSection content sectionName := by
  unfold extractSection amendedExtractSection
  rw [extractLoop_searching]
  cases (jsSplitLines content).dropWhile (fun l => !headingMatches sectionName l) with
  | nil => rfl
  | cons _ rest =>
    dsimp only
    rw [extractLoop_inSection]

theorem isKey_append (a b : Registry) (k : String) :
    isKey (a ++ b) k = (isKey a k || isKey b k) := by
  unfold isKey
  exact List.any_append

theorem insertKey_fresh (reg : Registry) (k : String) (v : StackProfile)
    (h : isKey reg k = false) : insertKey reg k v = reg ++ [(k, v)] := by
  induction reg with
  | nil => rfl
  | cons kv rest ih =>
    unfold isKey at h
    simp only [List.any_cons, Bool.or_eq_false_iff, decide_eq_false_iff_not] at h
    unfold insertKey
    rw [if_neg h.1, ih]
    · rfl
    · unfold isKey
      exact h.2

/-- The fold step of `loadStacks`. -/
theorem loadStacks_ok_distinct :
    ∀ (ps : List (String × StackProfile)) (acc : Registry) (errs : List Finding),
    (∀ fp ∈ ps, isKey acc fp.2.name = false) →
    (ps.map (fun fp => fp.2.name)).Nodup →
    (ps.map (fun fp => ((fp.1, Except.ok fp.2) : StackFile))).foldl
        (fun acc file =>
          match file.2 with
          | Except.ok stack => (insertKey acc.1 stack.name stack, acc.2)
          | Except.error msg =>
            (acc.1, acc.2 ++ [mkError ("Failed to load stack " ++ file.1 ++ ": " ++ msg)]))
        (acc, errs) =
      (acc ++ ps.map (fun fp => (fp.2.name, fp.2)), errs) := by
  intro ps
  induction ps with
  | nil => intro acc errs _ _; simp
  | cons fp ps ih =>
    intro acc errs hdisj hnodup
    simp only [List.map_cons, List.foldl_cons]
    have hfresh : isKey acc fp.2.name = false := hdisj fp (List.mem_cons_self fp ps)
    rw [insertKey_fresh acc fp.2.name fp.2 hfresh]
    simp only [List.map_cons, List.nodup_cons] at hnodup
    rw [ih (acc ++ [(fp.2.name, fp.2)]) errs ?_ hnodup.2]
    · simp
    · intro q hq
      rw [isKey_append]
      have h1 : isKey acc q.2.name = false := hdisj q (List.mem_cons_of_mem fp hq)
      have h2 : isKey [(fp.2.name, fp.2)] q.2.name = false := by
        unfold isKey
        simp only [List.any_cons, List.any_nil, Bool.or_false,
          decide_eq_false_iff_not]
        intro hEq
        exact hnodup.1 (hEq ▸ List.mem_map_of_mem (fun r => r.2.name) hq)
      rw [h1, h2]
      rfl

/-! ## The claims -/

/-- **C5** (counterexample): two successfully parsed stack files declaring
the same identifier are loaded without any error; the later file silently
overwrites the earlier registry entry, leaving one entry instead of two. -/
theorem duplicate_stack_overwrites_cex :
    loadStacks
        [("a.yml", Except.ok { name := "shared" }),
         ("b.yml", Except.ok { name := "shared", framework := some "next" })] =
      ([("shared", { name := "shared", framework := some "next" })], []) ∧
    ([("shared", ({ name := "shared", framework := some "next" } : StackProfile))].length ≠ 2) := by
  constructor
  · rfl
  · decide

/-- **C5** (amended): loading a registry from `N` successfully parsed
stack-profile files whose declared identifiers are pairwise distinct
yields exactly the `N` entries keyed by each file's declared identifier,
in file order, with no load errors; a duplicate identifier, however, is
not an error (the later profile silently overwrites the earlier entry, as
the counterexample shows). -/
theorem load_distinct_stacks_roundtrip (ps : List (String × StackProfile))
    (hnodup : (ps.map (fun fp => fp.2.name)).Nodup) :
    loadStacks (ps.map (fun fp => (fp.1, Except.ok fp.2))) =
      (ps.map (fun fp => (fp.2.name, fp.2)), []) := by
  unfold loadStacks
  rw [loadStacks_ok_distinct ps [] [] (fun _ _ => rfl) hnodup]
  simp

/-- **C5** (witness): the round-trip theorem applied to two concrete files
with distinct declared identifiers. -/
theorem load_distinct_stacks_roundtrip_witness :
    loadStacks
        [("a.yml", Except.ok { name := "alpha" }),
         ("b.yml", Except.ok { name := "beta" })] =
      ([("alpha", { name := "alpha" }), ("beta", { name := "beta" })], []) := by
  have h := load_distinct_stacks_roundtrip
    [("a.yml", { name := "alpha" }), ("b.yml", { name := "beta" })] (by decide)
  simpa using h

/-- **C10**: the front-matter block is recognised only at offset zero.
For every document text that does not begin with the opening delimiter
line, `lint` records exactly the missing-front-matter Error on top of the
instance state and performs no field-level, section, compliance or
section-specific checks at all. -/
theorem missing_front_matter_stops_validation (parse : YamlParser)
    (st : LinterState) (content : String)
    (h : strStartsWith content "---\n" = false) :
    (lint parse st content).1 =
      { valid := false,
        errors := st.errors ++ [mkError "Missing front matter"],
        warnings := st.warnings } := by
  unfold lint lintFindings frontMatterSplit
  rw [h]
  simp

/-- **C10** (witness): a document with a single leading blank line before
an otherwise well-formed header block yields only the missing-front-matter
Error. -/
theorem missing_front_matter_stops_validation_witness :
    (lint (fun _ => Except.error "unused") (freshLinter [])
        "\n---\ncartridge: true\n---\n").1 =
      { valid := false, errors := [mkError "Missing front matter"],
        warnings := [] } := by
  have h := missing_front_matter_stops_validation (fun _ => Except.error "unused")
    (freshLinter []) "\n---\ncartridge: true\n---\n" (by decide)
  simpa [freshLinter] using h

/-- The header block of concrete scenario A: `cartridge: true`,
`tier: prototype`, an unregistered stack identifier, `version: 1.0`,
`status: stable`, the `owner` field absent (and a `name` present, so that
the three findings of the scenario are isolated). -/
def fmScenarioA (s : String) : FrontMatter :=
  { cartridge := some true, name := some "Example", tier := some "prototype",
    stack := some s, version := some "1.0", owner := none,
    status := some "stable" }

/-- **C7**: on scenario A's header block the front-matter validator
reports exactly three Errors — missing `owner` field, unknown stack,
invalid version format (`1.0` lacks a third numeric segment) — and zero
Warnings (in particular none about the owner prefix). -/
theorem scenario_a_front_matter_report (reg : Registry) (s : String)
    (hs : s ≠ "") (hk : isKey reg s = false) :
    validateFrontMatter (fmScenarioA s) reg =
      (([mkError "Missing required front matter field: owner",
         unknownStackError reg s,
         mkError "Invalid version format: 1.0. Use semver (e.g., 1.0.0)"], []),
       some s) := by
  have h1 : missingFieldErrors (fmScenarioA s) =
      [mkError "Missing required front matter field: owner"] := rfl
  have h2 : cartridgeErrors (fmScenarioA s) = [] := rfl
  have h3 : tierErrors (fmScenarioA s) = [] := rfl
  have h4 : stackErrors (fmScenarioA s) reg = [unknownStackError reg s] := by
    unfold stackErrors fmScenarioA
    exact if_pos ⟨hs, hk⟩
  have h5 : versionErrors (fmScenarioA s) =
      [mkError "Invalid version format: 1.0. Use semver (e.g., 1.0.0)"] := rfl
  have h6 : statusErrors (fmScenarioA s) = [] := rfl
  have h7 : ownerWarnings (fmScenarioA s) = [] := rfl
  unfold validateFrontMatter
  rw [h1, h2, h3, h4, h5, h6, h7]
  rfl

/-- **C7** (witness): scenario A against a registry holding one stack,
with a concrete unregistered identifier. -/
theorem scenario_a_front_matter_report_witness :
    validateFrontMatter (fmScenarioA "no-such-stack")
        [("next-react-trpc-prisma", { name := "next-react-trpc-prisma" })] =
      (([mkError "Missing required front matter field: owner",
         unknownStackError
           [("next-react-trpc-prisma", { name := "next-react-trpc-prisma" })]
           "no-such-stack",
         mkError "Invalid version format: 1.0. Use semver (e.g., 1.0.0)"], []),
       some "no-such-stack") :=
  scenario_a_front_matter_report
    [("next-react-trpc-prisma", { name := "next-react-trpc-prisma" })]
    "no-such-stack" (by decide) (by decide)

/-- **C1**: a declared (non-empty) stack identifier that is not a key of
the registry makes the front-matter validator record the Error listing
the available stack identifiers, and makes the compliance scanner —
invoked on the stack name returned by the front-matter validator — skip
entirely, contributing zero compliance Errors and zero compliance
Warnings. -/
theorem unknown_stack_lists_available_and_skips_compliance
    (fm : FrontMatter) (reg : Registry) (body s : String)
    (hstack : fm.stack = some s) (hs : s ≠ "") (hk : isKey reg s = false) :
    unknownStackError reg s ∈ (validateFrontMatter fm reg).1.1 ∧
    validateStackCompliance body (validateFrontMatter fm reg).2 reg = ([], []) := by
  have hret : (validateFrontMatter fm reg).2 = some s := hstack
  constructor
  · have hse : stackErrors fm reg = [unknownStackError reg s] := by
      unfold stackErrors
      rw [hstack]
      exact if_pos ⟨hs, hk⟩
    unfold validateFrontMatter
    simp [hse]
  · rw [hret]
    unfold validateStackCompliance
    dsimp only
    rw [if_pos (Or.inr hk : s.toList.isEmpty = true ∨ isKey reg s = false)]

/-- **C1** (witness): a concrete document body and registry with an
unregistered declared stack. -/
theorem unknown_stack_skips_compliance_witness :
    unknownStackError [("next", { name := "next" })] "missing-stack" ∈
      (validateFrontMatter { stack := some "missing-stack" }
        [("next", { name := "next" })]).1.1 ∧
    validateStackCompliance "import x from 'vue'"
        (validateFrontMatter { stack := some "missing-stack" }
          [("next", { name := "next" })]).2
        [("next", { name := "next" })] = ([], []) :=
  unknown_stack_lists_available_and_skips_compliance
    { stack := some "missing-stack" } [("next", { name := "next" })]
    "import x from 'vue'" "missing-stack" rfl (by decide) (by decide)

/-- **C4** (counterexample): calling `lint` twice on the same linter
instance (the object holding the registry) is not idempotent — the second
Report duplicates the first's findings, because the instance's error and
warning arrays are never reset between calls. -/
theorem relint_not_idempotent_cex :
    (lint (fun _ => Except.error "e")
        (lint (fun _ => Except.error "e") (freshLinter []) "").2 "").1 ≠
      (lint (fun _ => Except.error "e") (freshLinter []) "").1 ∧
    (lint (fun _ => Except.error "e")
        (lint (fun _ => Except.error "e") (freshLinter []) "").2 "").1.errors.length = 2 := by
  constructor
  · decide
  · rfl

/-- **C4** (amended): validating the same document text twice against the
same registry is deterministic in the newly emitted findings, but the
linter instance accumulates: the second call's Report lists the first
Report's Errors (resp. Warnings) followed by an identical fresh batch, so
the two Reports are byte-identical only in the case of a finding-free
first Report. -/
theorem relint_duplicates_findings (parse : YamlParser) (reg : Registry)
    (content : String) :
    (lint parse (lint parse (freshLinter reg) content).2 content).1.errors =
      (lint parse (freshLinter reg) content).1.errors ++
        (lint parse (freshLinter reg) content).1.errors ∧
    (lint parse (lint parse (freshLinter reg) content).2 content).1.warnings =
      (lint parse (freshLinter reg) content).1.warnings ++
        (lint parse (freshLinter reg) content).1.warnings := by
  simp [lint, freshLinter]

/-- **C3** (counterexample): with header delimiters present but a failing
YAML parse, the Report contains only the parse Error — the Section
Structure Validator did not contribute its findings (the body here lacks
all eleven required sections, which would have produced eleven Errors had
the validator run). -/
theorem yaml_failure_cex :
    (lint (fun _ => Except.error "bad mapping") (freshLinter [])
        "---\nfoo: [\n---\nno sections here").1.errors =
      [mkError "Invalid YAML in front matter: bad mapping"] ∧
    (validateSections "\nno sections here").1.length = 11 := by
  constructor
  · rfl
  · rfl

/-- **C3** (amended): a front-matter parse failure records the Error with
the underlying cause and stops not only the field-level checks but the
whole per-document validation: the Section Structure Validator, Stack
Compliance Scanner and Section-Specific Checkers are all skipped, and the
Report gains only the single parse Error. -/
theorem yaml_failure_stops_all_checks (parse : YamlParser) (st : LinterState)
    (content fmText body msg : String)
    (hsplit : frontMatterSplit content = some (fmText, body))
    (hparse : parse fmText = Except.error msg) :
    (lint parse st content).1 =
      { valid := false,
        errors := st.errors ++ [mkError ("Invalid YAML in front matter: " ++ msg)],
        warnings := st.warnings } := by
  unfold lint lintFindings
  rw [hsplit]
  dsimp only
  rw [hparse]
  simp

/-- **C3** (witness): the amended theorem applied at a concrete document
whose delimited header text fails to parse. -/
theorem yaml_failure_stops_all_checks_witness :
    (lint (fun _ => Except.error "bad mapping") (freshLinter [])
        "---\nfoo: [\n---\nno sections here").1 =
      { valid := false,
        errors := [mkError "Invalid YAML in front matter: bad mapping"],
        warnings := [] } := by
  have h := yaml_failure_stops_all_checks (fun _ => Except.error "bad mapping")
    (freshLinter []) "---\nfoo: [\n---\nno sections here" "foo: ["
    "\nno sections here" "bad mapping" (by decide) rfl
  simpa [freshLinter] using h

/-- A body whose matched sections have expected indices `[2, 0, 1]`
(Development Style, Purpose, Stack Contract): the second element drops
below the first, the third rises again but stays below the running
maximum. -/
def bodySwapThree : String :=
  "## Development Style\nx\n## Purpose\ny\n## Stack Contract\nz"

/-- **C2** (counterexample): the source warns only on descents below the
immediately preceding expected index, not below the running maximum: on
`bodySwapThree` the code emits exactly one order Warning (for Purpose),
while the claim's running-maximum rule predicts a second one (for Stack
Contract, whose expected index 1 is below the running maximum 2). -/
theorem order_warning_not_running_max_cex :
    (validateSections bodySwapThree).2 = [orderWarning "Purpose"] ∧
    claimRunningMaxWarnings bodySwapThree =
      [orderWarning "Purpose", orderWarning "Stack Contract"] ∧
    (validateSections bodySwapThree).2 ≠ claimRunningMaxWarnings bodySwapThree := by
  refine ⟨rfl, rfl, ?_⟩
  decide

/-- A body containing the eleven required sections in canonical order. -/
def bodyCanonical : String :=
  "## Purpose\np\n## Stack Contract\ns\n## Development Style\nd\n## Inputs\ni\n" ++
  "## Outputs\no\n## Guardrails\ng\n## Steps the Agent Must Follow\nst\n" ++
  "## Quality Gates\nq\n## Integration Points\nip\n## Examples\ne\n## Version History\nv"

/-- `bodyCanonical` with the two adjacent required sections Development
Style (expected index 2) and Inputs (expected index 3) swapped. -/
def bodySwapAdjacent : String :=
  "## Purpose\np\n## Stack Contract\ns\n## Inputs\ni\n## Development Style\nd\n" ++
  "## Outputs\no\n## Guardrails\ng\n## Steps the Agent Must Follow\nst\n" ++
  "## Quality Gates\nq\n## Integration Points\nip\n## Examples\ne\n## Version History\nv"

/-- **C2** (amended): a matched section emits an out-of-order Warning
exactly when its expected index is less than the *immediately preceding*
matched section's expected index (the comparison value is reset, not a
running maximum); sections found in canonical order emit zero order
Warnings, and two swapped adjacent required sections emit exactly one
order Warning citing the earlier-canonical, later-appearing section. -/
theorem order_warnings_are_adjacent_descents :
    (∀ content : String, (validateSections content).2 =
      specAdjacentWarnings (orderedSectionsOf content)) ∧
    (validateSections bodyCanonical).2 = [] ∧
    (validateSections bodySwapAdjacent).2 = [orderWarning "Development Style"] := by
  refine ⟨?_, rfl, rfl⟩
  intro content
  unfold validateSections
  dsimp only
  exact orderLoop_from_start _

/-- A body with a level-2 heading that contains the section name
`Examples` as an inner substring without its title starting with it. -/
def bodyInnerHeading : String := "## Advanced Examples\nfoo\n## End\nbar"

/-- **C9** (counterexample): `extractSection` selects a heading by
substring containment on the whole line, not by a title-prefix match: on
`bodyInnerHeading` it returns the text under `## Advanced Examples`, while
the claim's title-prefix rule yields the empty result. -/
theorem extract_section_substring_cex :
    extractSection bodyInnerHeading "Examples" = "foo" ∧
    claimExtractSection bodyInnerHeading "Examples" = "" ∧
    extractSection bodyInnerHeading "Examples" ≠
      claimExtractSection bodyInnerHeading "Examples" := by
  refine ⟨rfl, rfl, ?_⟩
  decide

/-- **C9** (amended): section extraction selects the *first level-2
heading line containing the section name anywhere in the line* and returns
the lines after it up to the next level-2 heading line not containing the
name (further matching heading lines inside that range are skipped); when
no heading line contains the name the result is empty, and an empty
extraction makes the dependent Quality-Gates and Examples checks return
without emitting any finding. -/
theorem extract_section_amended (content sectionName : String) :
    extractSection content sectionName =
      amendedExtractSection content sectionName ∧
    (extractSection content "Quality Gates" = "" →
      validateQualityGates content = ([], [])) ∧
    (extractSection content "Examples" = "" →
      validateExamples content = ([], [])) := by
  refine ⟨extractSection_eq_amended content sectionName, ?_, ?_⟩
  · intro h
    simp [validateQualityGates, h]
  · intro h
    simp [validateExamples, h]

/-- **C9** (witness): the amended theorem applied at concrete inputs; a
body with no headings at all skips both dependent checkers silently. -/
theorem extract_section_amended_witness :
    extractSection "## Examples\ncode" "Examples" =
      amendedExtractSection "## Examples\ncode" "Examples" ∧
    validateQualityGates "plain prose only" = ([], []) ∧
    validateExamples "plain prose only" = ([], []) :=
  ⟨(extract_section_amended "## Examples\ncode" "Examples").1,
   (extract_section_amended "plain prose only" "Examples").2.1 (by decide),
   (extract_section_amended "plain prose only" "Examples").2.2 (by decide)⟩

/-- The registry of concrete scenario B: one registered stack whose
profile carries no technology descriptors and no forbidden list. -/
def regScenarioB : Registry := [("next", { name := "next" })]

/-- The fully valid header block of scenario B for the registered stack. -/
def fmScenarioB : FrontMatter :=
  { cartridge := some true, name := some "Demo", tier := some "prototype",
    stack := some "next", version := some "1.0.0", owner := some "@me",
    status := some "stable" }

/-- The YAML parse of scenario B's header text. -/
def parseScenarioB : YamlParser := fun _ => Except.ok fmScenarioB

/-- Scenario B's body: all eleven required sections in canonical order, a
Quality Gates section with a bash fence, and an Examples section whose
only code fence is untagged. -/
def docScenarioBBody : String :=
  "\n# Demo\n\n## Purpose\np\n## Stack Contract\ns\n## Development Style\nd\n" ++
  "## Inputs\ni\n## Outputs\no\n## Guardrails\ng\n## Steps the Agent Must Follow\nst\n" ++
  "## Quality Gates\n```bash\nnpm run verify\n```\n## Integration Points\nip\n" ++
  "## Examples\n```\ncode\n```\n## Version History\nv"

/-- Scenario B's full document text. -/
def docScenarioB : String :=
  "---\ncartridge: true\nname: Demo\ntier: prototype\nstack: next\n" ++
  "version: 1.0.0\nowner: \"@me\"\nstatus: stable\n---" ++ docScenarioBBody

/-- The warning emitted per untagged code fence marker. -/
def untaggedWarning : Finding :=
  mkWarning "Code blocks in Examples should specify a language (e.g., ```typescript)"

/-- **C6** (counterexample): on scenario B the Report has zero Errors but
*not* exactly one Warning — the closing fence of the untagged code block
also matches the untagged-fence pattern, so the single untagged code block
produces two Warnings. -/
theorem scenario_b_two_warnings_cex :
    (lint parseScenarioB (freshLinter regScenarioB) docScenarioB).1.errors = [] ∧
    (lint parseScenarioB (freshLinter regScenarioB) docScenarioB).1.warnings.length ≠ 1 := by
  refine ⟨rfl, ?_⟩
  decide

/-- **C6** (amended): on scenario B the Report has zero Errors and exactly
two Warnings, both the untagged-code-fence Warning (one for the opening
fence of the untagged block and one for its closing fence, which the
per-fence-marker scan also counts as untagged). -/
theorem scenario_b_report :
    (lint parseScenarioB (freshLinter regScenarioB) docScenarioB).1 =
      { valid := true, errors := [],
        warnings := [untaggedWarning, untaggedWarning] } := by
  decide

/-- The header block of the quality-gate scenario: declared tier
`productizing`. -/
def fmScenarioD : FrontMatter :=
  { cartridge := some true, name := some "Gate Demo", tier := some "productizing",
    stack := some "next", version := some "1.0.0", owner := some "@me",
    status := some "stable" }

/-- The YAML parse of the quality-gate scenario's header text. -/
def parseScenarioD : YamlParser := fun _ => Except.ok fmScenarioD

/-- The quality-gate scenario's body: a Quality Gates section with a bash
fence but none of the three expected command substrings, and no line
containing a tier marker (the declared tier lives only in the header). -/
def docScenarioDBody : String :=
  "\n# Gate Demo\n\n## Purpose\np\n## Stack Contract\ns\n## Development Style\nd\n" ++
  "## Inputs\ni\n## Outputs\no\n## Guardrails\ng\n## Steps the Agent Must Follow\nst\n" ++
  "## Quality Gates\n```bash\nnpm run verify\n```\n## Integration Points\nip\n" ++
  "## Examples\n```\ncode\n```\n## Version History\nv"

/-- The quality-gate scenario's full document text, declaring
`tier: productizing` in the header block. -/
def docScenarioD : String :=
  "---\ncartridge: true\nname: Gate Demo\ntier: productizing\nstack: next\n" ++
  "version: 1.0.0\nowner: \"@me\"\nstatus: stable\n---" ++ docScenarioDBody

/-- **C8**: the declared tier is `productizing` and the Quality Gates
section lacks all three expected command substrings, yet the Report
contains zero expected-command Warnings — the tier lookup of
`validateQualityGates` scans the body for a tier marker line, and `lint`
strips the front matter from the body before the call, so the declared
tier is never seen. -/
theorem stricter_tier_commands_never_checked :
    fmScenarioD.tier = some "productizing" ∧
    strContains (extractSection docScenarioDBody "Quality Gates") "lint" = false ∧
    strContains (extractSection docScenarioDBody "Quality Gates") "typecheck" = false ∧
    strContains (extractSection docScenarioDBody "Quality Gates") "test" = false ∧
    ((lint parseScenarioD (freshLinter regScenarioB) docScenarioD).1.warnings.filter
        (fun f => strContains f.message "Expected command")).length = 0 := by
  refine ⟨rfl, rfl, rfl, rfl, rfl⟩

end VibeCore
